import Mathlib

/-!
Verification of the semantic-communication relay simulator.

The TypeScript sources are shallowly embedded here:
- src/src/utils/semanticEmbedding.ts : vector utilities (cosine similarity,
  Gaussian noise, weighted combination);
- src/src/services/geminiService.ts : the private cosine-similarity helper;
- src/src/store/semanticSlice.ts : the vector-channel portion of the
  processCommunication thunk (path decision, relay forwarding, combining);
- src/src/components/relay/RelayPerformance.tsx : closed-form performance
  metrics (outage probability, ergodic capacity, bit error rate).

JavaScript numbers are modelled as real numbers; random draws (Math.random /
Box-Muller) are modelled by passing the stream of standard-normal samples as
an explicit function argument. A thrown exception is modelled as Option.none.
-/

noncomputable section

/-- TransmissionMode from src/src/store/types.ts. -/
inductive TransmissionMode where
  | LOS
  | RELAY
  deriving DecidableEq

/-- RelayMode from src/src/store/types.ts. -/
inductive RelayMode where
  | DF
  | AF
  deriving DecidableEq

/-- ActivePath from src/src/store/types.ts. -/
inductive ActivePath where
  | LOS
  | RELAY
  | NONE
  deriving DecidableEq

/-- A SemanticVector (src/src/utils/semanticEmbedding.ts) is an array of
JavaScript numbers, modelled as a list of reals. -/
abbrev SemanticVector : Type := List ℝ

/-- calculateCosineSimilarity from src/src/utils/semanticEmbedding.ts.
Throws (modelled as none) when the lengths differ; returns 0 when either
magnitude is zero; otherwise divides the dot product by the product of the
Euclidean magnitudes. -/
def calculateCosineSimilarity (vectorA vectorB : SemanticVector) : Option ℝ :=
  if vectorA.length ≠ vectorB.length then
    none
  else
    let dotProduct := (List.zipWith (fun a b => a * b) vectorA vectorB).sum
    let magnitudeA := Real.sqrt ((vectorA.map (fun val => val * val)).sum)
    let magnitudeB := Real.sqrt ((vectorB.map (fun val => val * val)).sum)
    if magnitudeA = 0 ∨ magnitudeB = 0 then
      some 0
    else
      some (dotProduct / (magnitudeA * magnitudeB))

/-- addGaussianNoise from src/src/utils/semanticEmbedding.ts. The stream z
supplies the Box-Muller standard-normal sample drawn for each component. -/
def addGaussianNoise (z : ℕ → ℝ) (vector : SemanticVector)
    (noiseVariance : ℝ) : SemanticVector :=
  let scaledVariance := noiseVariance * 0.1
  let vectorMagnitude := Real.sqrt ((vector.map (fun val => val * val)).sum)
  let scaleFactor := vectorMagnitude * 0.01
  List.zipWith (fun i value => value + z i * Real.sqrt scaledVariance * scaleFactor)
    (List.range vector.length) vector

/-- combineVectors from src/src/utils/semanticEmbedding.ts. Throws (none)
when the lengths differ; otherwise elementwise weight1 * v1 + (1 - weight1) * v2. -/
def combineVectors (vector1 vector2 : SemanticVector) (weight1 : ℝ) :
    Option SemanticVector :=
  if vector1.length ≠ vector2.length then
    none
  else
    let weight2 := 1 - weight1
    some (List.zipWith (fun val other => val * weight1 + other * weight2)
      vector1 vector2)

/-- GeminiService.calculateCosineSimilarity from
src/src/services/geminiService.ts. It never throws: it loops only over the
first min(|A|, |B|) components of both vectors. -/
def geminiCalculateCosineSimilarity (vectorA vectorB : SemanticVector) : ℝ :=
  let length := min vectorA.length vectorB.length
  let dotProduct :=
    ((List.range length).map (fun i => vectorA.getD i 0 * vectorB.getD i 0)).sum
  let normA :=
    ((List.range length).map (fun i => vectorA.getD i 0 * vectorA.getD i 0)).sum
  let normB :=
    ((List.range length).map (fun i => vectorB.getD i 0 * vectorB.getD i 0)).sum
  if normA = 0 ∨ normB = 0 then 0
  else dotProduct / (Real.sqrt normA * Real.sqrt normB)

/-- The slice of state written by the vector-channel portion of
processCommunication (src/src/store/semanticSlice.ts, lines 159-226). -/
structure VectorChannelResult where
  activePath : ActivePath
  noisyRelayVector : Option SemanticVector
  combinedVector : Option SemanticVector

/-- The vector-channel portion of the processCommunication thunk
(src/src/store/semanticSlice.ts, lines 111-226) for a fresh (non-iteration)
attempt with an encoded original vector. The streams zLOS, zRelay and zDF
supply the independent Box-Muller samples of the three addGaussianNoise
calls. A thrown combineVectors error would surface as combinedVector = none. -/
def processVectorChannel (zLOS zRelay zDF : ℕ → ℝ)
    (originalVector : SemanticVector)
    (noiseVariance similarityThreshold : ℝ)
    (transmissionMode : TransmissionMode) (relayMode : RelayMode)
    (distanceBR distanceRD pathLossExponent noisePower : ℝ) :
    VectorChannelResult :=
  let noisyLOSVector := addGaussianNoise zLOS originalVector noiseVariance
  let vectorSimilarity := max 0 (1 - noiseVariance * 10)
  if vectorSimilarity < similarityThreshold ∧
      transmissionMode = TransmissionMode.RELAY then
    let noisyRelayVector := addGaussianNoise zRelay originalVector noiseVariance
    let processedRelayVector :=
      if relayMode = RelayMode.DF then
        addGaussianNoise zDF originalVector (noiseVariance * 0.6)
      else
        let pathLossFactorBR := Real.rpow distanceBR (-pathLossExponent)
        let pathLossFactorRD := Real.rpow distanceRD (-pathLossExponent)
        let relayPathLossNoise := noiseVariance * (1 + (1 - pathLossFactorBR))
        let amplificationFactor := 1 / Real.sqrt (relayPathLossNoise + noisePower)
        noisyRelayVector.map (fun value => value * amplificationFactor)
    let relayWeight : ℝ := if relayMode = RelayMode.DF then 0.6 else 0.5
    { activePath := ActivePath.RELAY
      noisyRelayVector := some processedRelayVector
      combinedVector :=
        combineVectors noisyLOSVector processedRelayVector (1 - relayWeight) }
  else
    { activePath := ActivePath.LOS
      noisyRelayVector := none
      combinedVector := none }

/-- The forwarded relay-path vector produced inside the relay branch of
processCommunication, by relay mode (a named form of the two branches of
lines 172-200 of src/src/store/semanticSlice.ts). -/
def processedRelay (zRelay zDF : ℕ → ℝ) (originalVector : SemanticVector)
    (noiseVariance : ℝ) (relayMode : RelayMode)
    (distanceBR pathLossExponent noisePower : ℝ) : SemanticVector :=
  if relayMode = RelayMode.DF then
    addGaussianNoise zDF originalVector (noiseVariance * 0.6)
  else
    (addGaussianNoise zRelay originalVector noiseVariance).map
      (fun value => value *
        (1 / Real.sqrt (noiseVariance *
          (1 + (1 - Real.rpow distanceBR (-pathLossExponent))) + noisePower)))

/-- The Q-function approximation used by calculateBER in
src/src/components/relay/RelayPerformance.tsx. -/
def qFunction (x : ℝ) : ℝ := 0.5 * Real.exp (-0.5 * x * x)

/-- calculateOutageProbability from
src/src/components/relay/RelayPerformance.tsx (lines 88-109). -/
def calculateOutageProbability (mode : String)
    (powerBR powerRD snr threshold noise : ℝ) : ℝ :=
  let snrBR := powerBR * snr / noise
  let snrRD := powerRD * snr / noise
  if mode = "df" then
    let snrDF := min snrBR snrRD
    max 0.001 (min 0.999 (1 - Real.exp (-(threshold / snrDF))))
  else
    let snrAF := snrBR * snrRD / (snrBR + snrRD + 1)
    max 0.001 (min 0.999 (1 - Real.exp (-(threshold / snrAF))))

/-- calculateErgodicCapacity from
src/src/components/relay/RelayPerformance.tsx (lines 111-130). -/
def calculateErgodicCapacity (mode : String)
    (powerBR powerRD snr noise : ℝ) : ℝ :=
  let snrBR := powerBR * snr / noise
  let snrRD := powerRD * snr / noise
  if mode = "df" then
    let snrDF := min snrBR snrRD
    Real.logb 2 (1 + snrDF)
  else
    let snrAF := snrBR * snrRD / (snrBR + snrRD + 1)
    Real.logb 2 (1 + snrAF)

/-- calculateBER from src/src/components/relay/RelayPerformance.tsx
(lines 132-156). -/
def calculateBER (mode : String) (powerBR powerRD snr noise : ℝ) : ℝ :=
  let snrBR := powerBR * snr / noise
  let snrRD := powerRD * snr / noise
  if mode = "df" then
    let snrDF := min snrBR snrRD
    qFunction (Real.sqrt (2 * snrDF))
  else
    let snrAF := snrBR * snrRD / (snrBR + snrRD + 1)
    qFunction (Real.sqrt (2 * snrAF))

/-- PerformanceMetrics from src/src/components/relay/RelayPerformance.tsx. -/
structure PerformanceMetrics where
  outageProbability : ℝ
  ergodicCapacity : ℝ
  bitErrorRate : ℝ

/-- The metric computation performed by the RelayPerformance effect
(src/src/components/relay/RelayPerformance.tsx, lines 37-85): when inputText
is empty both metric sets are reset to zero; otherwise the DF and AF metrics
are computed from the channel parameters and the SNR value. Returns the
(dfMetrics, afMetrics) pair that the component displays. -/
def computeDisplayedMetrics (distanceBR distanceRD pathLossExponent noisePower
    snrThreshold snrValue : ℝ) (inputText : String) :
    PerformanceMetrics × PerformanceMetrics :=
  if inputText = "" then
    (⟨0, 0, 0⟩, ⟨0, 0, 0⟩)
  else
    let snrLinear := Real.rpow 10 (snrValue / 10)
    let meanPowerBR := Real.rpow distanceBR (-pathLossExponent)
    let meanPowerRD := Real.rpow distanceRD (-pathLossExponent)
    (⟨calculateOutageProbability "df" meanPowerBR meanPowerRD snrLinear
        snrThreshold noisePower,
      calculateErgodicCapacity "df" meanPowerBR meanPowerRD snrLinear noisePower,
      calculateBER "df" meanPowerBR meanPowerRD snrLinear noisePower⟩,
     ⟨calculateOutageProbability "af" meanPowerBR meanPowerRD snrLinear
        snrThreshold noisePower,
      calculateErgodicCapacity "af" meanPowerBR meanPowerRD snrLinear noisePower,
      calculateBER "af" meanPowerBR meanPowerRD snrLinear noisePower⟩)

theorem addGaussianNoise_length (z : ℕ → ℝ) (vector : SemanticVector)
    (noiseVariance : ℝ) :
    (addGaussianNoise z vector noiseVariance).length = vector.length := by
  simp [addGaussianNoise]

theorem combineVectors_eq_some (vector1 vector2 : SemanticVector) (weight1 : ℝ)
    (hlen : vector1.length = vector2.length) :
    combineVectors vector1 vector2 weight1 =
      some (List.zipWith (fun val other => val * weight1 + other * (1 - weight1))
        vector1 vector2) := by
  simp [combineVectors, hlen]

theorem processVectorChannel_eq (zLOS zRelay zDF : ℕ → ℝ)
    (originalVector : SemanticVector)
    (noiseVariance similarityThreshold : ℝ)
    (transmissionMode : TransmissionMode) (relayMode : RelayMode)
    (distanceBR distanceRD pathLossExponent noisePower : ℝ) :
    processVectorChannel zLOS zRelay zDF originalVector noiseVariance
      similarityThreshold transmissionMode relayMode distanceBR distanceRD
      pathLossExponent noisePower =
    if max 0 (1 - noiseVariance * 10) < similarityThreshold ∧
        transmissionMode = TransmissionMode.RELAY then
      { activePath := ActivePath.RELAY
        noisyRelayVector := some (processedRelay zRelay zDF originalVector
          noiseVariance relayMode distanceBR pathLossExponent noisePower)
        combinedVector := combineVectors
          (addGaussianNoise zLOS originalVector noiseVariance)
          (processedRelay zRelay zDF originalVector noiseVariance relayMode
            distanceBR pathLossExponent noisePower)
          (1 - if relayMode = RelayMode.DF then (0.6 : ℝ) else 0.5) }
    else
      { activePath := ActivePath.LOS
        noisyRelayVector := none
        combinedVector := none } := rfl

theorem processedRelay_length (zRelay zDF : ℕ → ℝ)
    (originalVector : SemanticVector) (noiseVariance : ℝ)
    (relayMode : RelayMode) (distanceBR pathLossExponent noisePower : ℝ) :
    (processedRelay zRelay zDF originalVector noiseVariance relayMode
      distanceBR pathLossExponent noisePower).length =
      originalVector.length := by
  cases relayMode <;> simp [processedRelay, addGaussianNoise_length]

/-- Claim C1: the active path is RelayAssisted iff the transmission mode is
RelayAssisted and the quality proxy max(0, 1 - noiseVariance * 10) is strictly
below similarityThreshold; in every other case it is LineOfSight. -/
theorem C1_path_selection (zLOS zRelay zDF : ℕ → ℝ)
    (originalVector : SemanticVector)
    (noiseVariance similarityThreshold : ℝ)
    (transmissionMode : TransmissionMode) (relayMode : RelayMode)
    (distanceBR distanceRD pathLossExponent noisePower : ℝ) :
    ((processVectorChannel zLOS zRelay zDF originalVector noiseVariance
        similarityThreshold transmissionMode relayMode distanceBR distanceRD
        pathLossExponent noisePower).activePath = ActivePath.RELAY ↔
      (transmissionMode = TransmissionMode.RELAY ∧
        max 0 (1 - noiseVariance * 10) < similarityThreshold)) ∧
    ((processVectorChannel zLOS zRelay zDF originalVector noiseVariance
        similarityThreshold transmissionMode relayMode distanceBR distanceRD
        pathLossExponent noisePower).activePath = ActivePath.RELAY ∨
     (processVectorChannel zLOS zRelay zDF originalVector noiseVariance
        similarityThreshold transmissionMode relayMode distanceBR distanceRD
        pathLossExponent noisePower).activePath = ActivePath.LOS) := by
  by_cases h : max 0 (1 - noiseVariance * 10) < similarityThreshold ∧
      transmissionMode = TransmissionMode.RELAY
  · constructor
    · simp [processVectorChannel, h, h.1, h.2]
    · left
      simp [processVectorChannel, h]
  · constructor
    · simp only [processVectorChannel, if_neg h]
      constructor
      · intro hfalse
        exact absurd hfalse (by simp)
      · intro hrhs
        exact absurd ⟨hrhs.2, hrhs.1⟩ h
    · right
      simp only [processVectorChannel, if_neg h]

/-- Claim C2: the relay-path vector and the combined vector are present iff
the active path is RelayAssisted; on a LineOfSight decision both are cleared
to none, and exactly one of the two paths is recorded as active. -/
theorem C2_relay_vectors_invariant (zLOS zRelay zDF : ℕ → ℝ)
    (originalVector : SemanticVector)
    (noiseVariance similarityThreshold : ℝ)
    (transmissionMode : TransmissionMode) (relayMode : RelayMode)
    (distanceBR distanceRD pathLossExponent noisePower : ℝ) :
    (((processVectorChannel zLOS zRelay zDF originalVector noiseVariance
        similarityThreshold transmissionMode relayMode distanceBR distanceRD
        pathLossExponent noisePower).noisyRelayVector.isSome ∧
      (processVectorChannel zLOS zRelay zDF originalVector noiseVariance
        similarityThreshold transmissionMode relayMode distanceBR distanceRD
        pathLossExponent noisePower).combinedVector.isSome) ↔
      (processVectorChannel zLOS zRelay zDF originalVector noiseVariance
        similarityThreshold transmissionMode relayMode distanceBR distanceRD
        pathLossExponent noisePower).activePath = ActivePath.RELAY) ∧
    ((processVectorChannel zLOS zRelay zDF originalVector noiseVariance
        similarityThreshold transmissionMode relayMode distanceBR distanceRD
        pathLossExponent noisePower).activePath = ActivePath.LOS →
      (processVectorChannel zLOS zRelay zDF originalVector noiseVariance
        similarityThreshold transmissionMode relayMode distanceBR distanceRD
        pathLossExponent noisePower).noisyRelayVector = none ∧
      (processVectorChannel zLOS zRelay zDF originalVector noiseVariance
        similarityThreshold transmissionMode relayMode distanceBR distanceRD
        pathLossExponent noisePower).combinedVector = none) ∧
    ((processVectorChannel zLOS zRelay zDF originalVector noiseVariance
        similarityThreshold transmissionMode relayMode distanceBR distanceRD
        pathLossExponent noisePower).activePath = ActivePath.LOS ↔
      ¬ (processVectorChannel zLOS zRelay zDF originalVector noiseVariance
        similarityThreshold transmissionMode relayMode distanceBR distanceRD
        pathLossExponent noisePower).activePath = ActivePath.RELAY) := by
  rw [processVectorChannel_eq]
  by_cases h : max 0 (1 - noiseVariance * 10) < similarityThreshold ∧
      transmissionMode = TransmissionMode.RELAY
  · rw [if_pos h]
    rw [combineVectors_eq_some _ _ _
      (by rw [addGaussianNoise_length, processedRelay_length])]
    simp
  · rw [if_neg h]
    simp

/-- Claim C6: in Amplify-and-Forward mode the forwarded relay vector is the
noisy relay vector with every component multiplied by the amplification
factor 1 / sqrt(relayNoise + noisePower), with
relayNoise = noiseVariance * (1 + (1 - distanceBR^(-pathLossExponent))),
and it has the same dimension as its input. -/
theorem C6_af_forwarding (zLOS zRelay zDF : ℕ → ℝ)
    (originalVector : SemanticVector)
    (noiseVariance similarityThreshold : ℝ)
    (transmissionMode : TransmissionMode) (relayMode : RelayMode)
    (distanceBR distanceRD pathLossExponent noisePower : ℝ)
    (hmode : transmissionMode = TransmissionMode.RELAY)
    (hq : max 0 (1 - noiseVariance * 10) < similarityThreshold)
    (haf : relayMode = RelayMode.AF) :
    (processVectorChannel zLOS zRelay zDF originalVector noiseVariance
        similarityThreshold transmissionMode relayMode distanceBR distanceRD
        pathLossExponent noisePower).noisyRelayVector =
      some ((addGaussianNoise zRelay originalVector noiseVariance).map
        (fun value => value *
          (1 / Real.sqrt (noiseVariance *
            (1 + (1 - Real.rpow distanceBR (-pathLossExponent))) + noisePower)))) ∧
    ((addGaussianNoise zRelay originalVector noiseVariance).map
        (fun value => value *
          (1 / Real.sqrt (noiseVariance *
            (1 + (1 - Real.rpow distanceBR (-pathLossExponent))) + noisePower)))).length =
      (addGaussianNoise zRelay originalVector noiseVariance).length := by
  subst haf
  rw [processVectorChannel_eq, if_pos ⟨hq, hmode⟩]
  constructor
  · simp [processedRelay]
  · simp

/-- Witness for C6 with the default channel configuration, noiseVariance 0.1
and similarityThreshold 0.7 (so the quality proxy 0 is below the threshold). -/
theorem C6_af_forwarding_witness :
    max 0 (1 - (0.1 : ℝ) * 10) < 0.7 ∧
    ((processVectorChannel (fun _ => 0) (fun _ => 1) (fun _ => 1) [1, 2] 0.1
        0.7 TransmissionMode.RELAY RelayMode.AF 10 10 2.5 0.001).noisyRelayVector =
      some ((addGaussianNoise (fun _ => 1) [1, 2] 0.1).map
        (fun value => value *
          (1 / Real.sqrt ((0.1 : ℝ) *
            (1 + (1 - Real.rpow 10 (-(2.5 : ℝ)))) + 0.001)))) ∧
     ((addGaussianNoise (fun _ => 1) [1, 2] 0.1).map
        (fun value => value *
          (1 / Real.sqrt ((0.1 : ℝ) *
            (1 + (1 - Real.rpow 10 (-(2.5 : ℝ)))) + 0.001)))).length =
      (addGaussianNoise (fun _ => 1) [1, 2] 0.1).length) :=
  ⟨by norm_num,
    C6_af_forwarding (fun _ => 0) (fun _ => 1) (fun _ => 1) [1, 2] 0.1 0.7
      TransmissionMode.RELAY RelayMode.AF 10 10 2.5 0.001 rfl (by norm_num) rfl⟩

/-- Claim C7: in Decode-and-Forward mode the forwarded relay vector is a
fresh noisy sample of the original vector drawn with the reduced effective
noise variance noiseVariance * 0.6. -/
theorem C7_df_forwarding (zLOS zRelay zDF : ℕ → ℝ)
    (originalVector : SemanticVector)
    (noiseVariance similarityThreshold : ℝ)
    (transmissionMode : TransmissionMode) (relayMode : RelayMode)
    (distanceBR distanceRD pathLossExponent noisePower : ℝ)
    (hmode : transmissionMode = TransmissionMode.RELAY)
    (hq : max 0 (1 - noiseVariance * 10) < similarityThreshold)
    (hdf : relayMode = RelayMode.DF) :
    (processVectorChannel zLOS zRelay zDF originalVector noiseVariance
        similarityThreshold transmissionMode relayMode distanceBR distanceRD
        pathLossExponent noisePower).noisyRelayVector =
      some (addGaussianNoise zDF originalVector (noiseVariance * 0.6)) := by
  subst hdf
  rw [processVectorChannel_eq, if_pos ⟨hq, hmode⟩]
  simp [processedRelay]

/-- Witness for C7 with the default channel configuration, noiseVariance 0.1
and similarityThreshold 0.7. -/
theorem C7_df_forwarding_witness :
    max 0 (1 - (0.1 : ℝ) * 10) < 0.7 ∧
    (processVectorChannel (fun _ => 0) (fun _ => 1) (fun _ => 1) [1, 2] 0.1
        0.7 TransmissionMode.RELAY RelayMode.DF 10 10 2.5 0.001).noisyRelayVector =
      some (addGaussianNoise (fun _ => 1) [1, 2] ((0.1 : ℝ) * 0.6)) :=
  ⟨by norm_num,
    C7_df_forwarding (fun _ => 0) (fun _ => 1) (fun _ => 1) [1, 2] 0.1 0.7
      TransmissionMode.RELAY RelayMode.DF 10 10 2.5 0.001 rfl (by norm_num) rfl⟩

/-- Claim C3: for equal-length vectors A and B and any weight w in the unit
interval, combineVectors succeeds, returns a vector of the same length, and
its i-th component equals w * A i + (1 - w) * B i for every index i. -/
theorem C3_combineVectors_weighted_sum (A B : SemanticVector) (w : ℝ)
    (hlen : A.length = B.length) (hw0 : 0 ≤ w) (hw1 : w ≤ 1) :
    ∃ r : SemanticVector, combineVectors A B w = some r ∧
      r.length = A.length ∧
      ∀ i : ℕ, i < r.length →
        r.getD i 0 = w * A.getD i 0 + (1 - w) * B.getD i 0 := by
  refine ⟨List.zipWith (fun val other => val * w + other * (1 - w)) A B, ?_, ?_, ?_⟩
  · simp [combineVectors, hlen]
  · simp [hlen]
  · intro i hi
    simp only [List.length_zipWith, hlen, min_self] at hi
    rw [List.getD_eq_getElem _ _ (by simp [List.length_zipWith, hlen]; omega),
      List.getD_eq_getElem _ _ (by omega), List.getD_eq_getElem _ _ (by omega)]
    · simp only [List.getElem_zipWith]
      ring

/-- Witness for C3 at A = [1, 2], B = [3, 4], w = 1/2. -/
theorem C3_combineVectors_weighted_sum_witness :
    ([1, 2] : SemanticVector).length = ([3, 4] : SemanticVector).length ∧
    (0:ℝ) ≤ 1/2 ∧ (1:ℝ)/2 ≤ 1 ∧
    (∃ r : SemanticVector, combineVectors [1, 2] [3, 4] (1/2) = some r ∧
      r.length = ([1, 2] : SemanticVector).length ∧
      ∀ i : ℕ, i < r.length →
        r.getD i 0 = (1/2) * ([1, 2] : SemanticVector).getD i 0 +
          (1 - 1/2) * ([3, 4] : SemanticVector).getD i 0) :=
  ⟨by simp, by norm_num, by norm_num,
    C3_combineVectors_weighted_sum [1, 2] [3, 4] (1/2) (by simp)
      (by norm_num) (by norm_num)⟩

/-- Claim C5: addGaussianNoise with zero variance returns the input vector
exactly: the Gaussian sample z i is still present but is scaled by
sqrt(0 * 0.1) = 0, so every component is unchanged. -/
theorem C5_addGaussianNoise_zero_variance (z : ℕ → ℝ) (v : SemanticVector) :
    addGaussianNoise z v 0 = v := by
  apply List.ext_getElem
  · simp [addGaussianNoise]
  · intro i h1 h2
    simp [addGaussianNoise, List.getElem_zipWith, Real.sqrt_eq_zero]

/-- Claim C10: on equal-length inputs, calculateCosineSimilarity always
returns a value (the division is guarded), and whenever either vector has
zero Euclidean magnitude it returns exactly 0. -/
theorem C10_cosine_zero_norm_guard (A B : SemanticVector)
    (hlen : A.length = B.length) :
    (∃ r : ℝ, calculateCosineSimilarity A B = some r) ∧
    ((Real.sqrt ((A.map (fun val => val * val)).sum) = 0 ∨
      Real.sqrt ((B.map (fun val => val * val)).sum) = 0) →
      calculateCosineSimilarity A B = some 0) := by
  constructor
  · by_cases hz : Real.sqrt ((A.map (fun val => val * val)).sum) = 0 ∨
        Real.sqrt ((B.map (fun val => val * val)).sum) = 0
    · exact ⟨0, by simp [calculateCosineSimilarity, hlen, hz]⟩
    · refine ⟨(List.zipWith (fun a b => a * b) A B).sum /
        (Real.sqrt ((A.map (fun val => val * val)).sum) *
         Real.sqrt ((B.map (fun val => val * val)).sum)), ?_⟩
      simp [calculateCosineSimilarity, hlen, hz]
  · intro hz
    simp [calculateCosineSimilarity, hlen, hz]

/-- Witness for C10 at A = [0, 0] (zero norm) and B = [3, 4]. -/
theorem C10_cosine_zero_norm_guard_witness :
    ([0, 0] : SemanticVector).length = ([3, 4] : SemanticVector).length ∧
    ((∃ r : ℝ, calculateCosineSimilarity [0, 0] [3, 4] = some r) ∧
     ((Real.sqrt ((([0, 0] : SemanticVector).map (fun val => val * val)).sum) = 0 ∨
       Real.sqrt ((([3, 4] : SemanticVector).map (fun val => val * val)).sum) = 0) →
       calculateCosineSimilarity [0, 0] [3, 4] = some 0)) :=
  ⟨by simp, C10_cosine_zero_norm_guard [0, 0] [3, 4] (by simp)⟩

theorem gemini_cosine_truncates (A B : SemanticVector) :
    geminiCalculateCosineSimilarity A B =
      geminiCalculateCosineSimilarity (A.take (min A.length B.length))
        (B.take (min A.length B.length)) := by
  have hA : (A.take (min A.length B.length)).length = min A.length B.length := by
    simp [List.length_take]
  have hB : (B.take (min A.length B.length)).length = min A.length B.length := by
    simp [List.length_take]
  have hgetA : ∀ i ∈ List.range (min A.length B.length),
      (A.take (min A.length B.length)).getD i 0 = A.getD i 0 := by
    intro i hi
    rw [List.mem_range] at hi
    rw [List.getD_eq_getElem _ _ (by omega), List.getD_eq_getElem _ _ (by omega)]
    exact List.getElem_take _
  have hgetB : ∀ i ∈ List.range (min A.length B.length),
      (B.take (min A.length B.length)).getD i 0 = B.getD i 0 := by
    intro i hi
    rw [List.mem_range] at hi
    rw [List.getD_eq_getElem _ _ (by omega), List.getD_eq_getElem _ _ (by omega)]
    exact List.getElem_take _
  have e1 : (List.range (min A.length B.length)).map
        (fun i => (A.take (min A.length B.length)).getD i 0 *
          (B.take (min A.length B.length)).getD i 0) =
      (List.range (min A.length B.length)).map
        (fun i => A.getD i 0 * B.getD i 0) :=
    List.map_congr_left (fun i hi => by rw [hgetA i hi, hgetB i hi])
  have e2 : (List.range (min A.length B.length)).map
        (fun i => (A.take (min A.length B.length)).getD i 0 *
          (A.take (min A.length B.length)).getD i 0) =
      (List.range (min A.length B.length)).map
        (fun i => A.getD i 0 * A.getD i 0) :=
    List.map_congr_left (fun i hi => by rw [hgetA i hi])
  have e3 : (List.range (min A.length B.length)).map
        (fun i => (B.take (min A.length B.length)).getD i 0 *
          (B.take (min A.length B.length)).getD i 0) =
      (List.range (min A.length B.length)).map
        (fun i => B.getD i 0 * B.getD i 0) :=
    List.map_congr_left (fun i hi => by rw [hgetB i hi])
  unfold geminiCalculateCosineSimilarity
  simp only [hA, hB, min_self, e1, e2, e3]

/-- Counterexample to claim C4: GeminiService.calculateCosineSimilarity does
not raise on mismatched dimensions; at vectors [1, 2] and [1] it silently
truncates to the first component of each and returns the value 1. -/
theorem C4_counterexample_gemini_no_error :
    geminiCalculateCosineSimilarity [1, 2] [1] = 1 := by
  unfold geminiCalculateCosineSimilarity
  norm_num [List.range_succ]

/-- Claim C4 as amended: combineVectors and the utility
calculateCosineSimilarity surface a DimensionMismatch error on unequal-length
inputs, but GeminiService.calculateCosineSimilarity does not: it silently
truncates both vectors to the shorter length and returns a value. -/
theorem C4_amended_dimension_mismatch (A B : SemanticVector) (w : ℝ)
    (hne : A.length ≠ B.length) :
    combineVectors A B w = none ∧
    calculateCosineSimilarity A B = none ∧
    geminiCalculateCosineSimilarity A B =
      geminiCalculateCosineSimilarity (A.take (min A.length B.length))
        (B.take (min A.length B.length)) :=
  ⟨by simp [combineVectors, hne], by simp [calculateCosineSimilarity, hne],
    gemini_cosine_truncates A B⟩

/-- Witness for the amended C4 at A = [1, 2], B = [1], w = 1/2. -/
theorem C4_amended_dimension_mismatch_witness :
    ([1, 2] : SemanticVector).length ≠ ([1] : SemanticVector).length ∧
    (combineVectors [1, 2] [1] (1/2) = none ∧
     calculateCosineSimilarity [1, 2] [1] = none ∧
     geminiCalculateCosineSimilarity [1, 2] [1] =
       geminiCalculateCosineSimilarity
         (([1, 2] : SemanticVector).take
           (min ([1, 2] : SemanticVector).length ([1] : SemanticVector).length))
         (([1] : SemanticVector).take
           (min ([1, 2] : SemanticVector).length ([1] : SemanticVector).length))) :=
  ⟨by simp, C4_amended_dimension_mismatch [1, 2] [1] (1/2) (by simp)⟩

/-- Claim C8: for DF the evaluator uses the effective SNR
snrDF = min(snrBR, snrRD), returns ergodicCapacity = log2(1 + snrDF), and
returns an outage probability inside [0.001, 0.999] for every input. -/
theorem C8_df_metrics (powerBR powerRD snr threshold noise : ℝ) :
    calculateErgodicCapacity "df" powerBR powerRD snr noise =
      Real.logb 2 (1 + min (powerBR * snr / noise) (powerRD * snr / noise)) ∧
    0.001 ≤ calculateOutageProbability "df" powerBR powerRD snr threshold noise ∧
    calculateOutageProbability "df" powerBR powerRD snr threshold noise ≤ 0.999 := by
  refine ⟨rfl, ?_, ?_⟩
  · simp only [calculateOutageProbability, if_pos rfl]
    exact le_max_left _ _
  · simp only [calculateOutageProbability, if_pos rfl]
    exact max_le (by norm_num) (min_le_left _ _)

/-- Counterexample to claim C9: with the default channel configuration and
snrValueDb = 20, changing only the input text from empty to non-empty changes
the displayed metrics (they are reset to zero on empty input, while the DF
outage probability is at least 0.001 otherwise). -/
theorem C9_counterexample_input_text :
    computeDisplayedMetrics 10 10 2.5 0.001 0.1 20 "" ≠
      computeDisplayedMetrics 10 10 2.5 0.001 0.1 20 "x" := by
  intro hEq
  have h1 : (computeDisplayedMetrics 10 10 2.5 0.001 0.1 20 "").1.outageProbability
      = 0 := by
    simp [computeDisplayedMetrics]
  have h2 : (0.001 : ℝ) ≤
      (computeDisplayedMetrics 10 10 2.5 0.001 0.1 20 "x").1.outageProbability := by
    have hx : ("x" : String) ≠ "" := by decide
    simp only [computeDisplayedMetrics, if_neg hx]
    simp only [calculateOutageProbability, if_pos rfl]
    exact le_max_left _ _
  rw [hEq] at h1
  rw [h1] at h2
  norm_num at h2

/-- Claim C9 as amended: the displayed metrics are a pure function of the
channel configuration, snrValueDb, and the emptiness of the input text: for
any two non-empty input texts the reported DF and AF metrics coincide. -/
theorem C9_amended_metrics_pure (distanceBR distanceRD pathLossExponent
    noisePower snrThreshold snrValue : ℝ) (t1 t2 : String)
    (h1 : t1 ≠ "") (h2 : t2 ≠ "") :
    computeDisplayedMetrics distanceBR distanceRD pathLossExponent noisePower
      snrThreshold snrValue t1 =
    computeDisplayedMetrics distanceBR distanceRD pathLossExponent noisePower
      snrThreshold snrValue t2 := by
  simp [computeDisplayedMetrics, h1, h2]

/-- Witness for the amended C9 at the default configuration with the two
non-empty texts "a" and "b". -/
theorem C9_amended_metrics_pure_witness :
    ("a" : String) ≠ "" ∧ ("b" : String) ≠ "" ∧
    computeDisplayedMetrics 10 10 2.5 0.001 0.1 20 "a" =
      computeDisplayedMetrics 10 10 2.5 0.001 0.1 20 "b" :=
  ⟨by decide, by decide,
    C9_amended_metrics_pure 10 10 2.5 0.001 0.1 20 "a" "b" (by decide) (by decide)⟩
